import Mathlib

/-!
Verification development for the IIRFilters repository
(Source/dsp/Biquad.h, Source/dsp/Biquad.cpp, Source/dsp/AudioFilter.h,
Source/dsp/AudioFilter.cpp).

The biquad evaluator is embedded generically over a linear ordered field
with a floor (instantiated at `ℚ` for exact concrete evaluation and at `ℝ`
for the coefficient designer, whose formulas use transcendental functions).

C++ `double` arithmetic is modelled as exact field arithmetic.  The one
place where C++ integral semantics matter is the statement
`s[y_z1] = s[yn];` in `Biquad::processAudioSample` (Biquad.cpp line 21):
there the `double` value `yn` is implicitly converted to the array index
type `size_t` (truncation toward zero) and used to read the 4-element
state array.  That conversion and read are well defined exactly when
`-1 < yn < 4` (truncation lands in `{0,1,2,3}`); outside that range the
behaviour is undefined (negative value not representable, or out-of-bounds
array read), which the embedding represents by returning `none` for the
post-state.
-/

/-- Embedding of the coefficient array `std::array<double, numCoeffs>` with
the `FilterCoeff` enum slots `a0, a1, a2, b1, b2, c0, d0` (Biquad.h line 8). -/
structure BiquadCoeffs (F : Type) where
  a0 : F
  a1 : F
  a2 : F
  b1 : F
  b2 : F
  c0 : F
  d0 : F
deriving DecidableEq

/-- Embedding of the state array `std::array<double, numStates>` with the
`StateReg` enum slots `x_z1, x_z2, y_z1, y_z2` (Biquad.h line 9). -/
structure BiquadState (F : Type) where
  x_z1 : F
  x_z2 : F
  y_z1 : F
  y_z2 : F
deriving DecidableEq

/-- Value of `BiquadAlgorithm::kDirect` (Biquad.h line 10); the enum is
modelled by its underlying integer so that out-of-range selector values
(claim C10) are expressible. -/
def BiquadAlgorithm.kDirect : ℤ := 0

/-- Value of `BiquadAlgorithm::kCanonical` (Biquad.h line 10). -/
def BiquadAlgorithm.kCanonical : ℤ := 1

/-- Value of `BiquadAlgorithm::kTransposeDirect` (Biquad.h line 10). -/
def BiquadAlgorithm.kTransposeDirect : ℤ := 2

/-- Value of `BiquadAlgorithm::kTransposeCanonical` (Biquad.h line 10). -/
def BiquadAlgorithm.kTransposeCanonical : ℤ := 3

variable {F : Type} [LinearOrderedField F] [FloorRing F]

/-- Reading the state array at a raw integer index, in `StateReg` order
(`x_z1 = 0, x_z2 = 1, y_z1 = 2, y_z2 = 3`).  Indices `≥ 4` are out of
bounds in the C++ code; callers guard them away. -/
def Biquad.readState (s : BiquadState F) : ℕ → F
  | 0 => s.x_z1
  | 1 => s.x_z2
  | 2 => s.y_z1
  | 3 => s.y_z2
  | _ => 0

/-- Embedding of `Biquad::reset` (Biquad.cpp lines 7-9): zero the four
delay-state registers.  Coefficients are untouched. -/
def Biquad.reset (_s : BiquadState F) : BiquadState F := ⟨0, 0, 0, 0⟩

/-- Embedding of `Biquad::processAudioSample` (Biquad.cpp lines 11-53).
Returns the output sample together with the post-state; the post-state is
`none` when the C++ code's behaviour at that input is undefined.

The `kDirect` branch is transcribed as written in the source, including
line 21 `s[y_z1] = s[yn];`, which converts the `double` output `yn` to an
array index (truncation toward zero) and stores the value read there into
`y_z1` — it does not store `yn` itself.  The read is performed on the
array as it stands after the line 18-20 shifts
(`x_z2 := x_z1; x_z1 := sample; y_z2 := y_z1`).  It is well defined only
for `-1 < yn < 4`.

The `kTransposeDirect` branch is likewise transcribed as written
(lines 37-40): `wn = sample + s[x_z1]`, `yn = a0*wn + s[y_z1]`, with only
`x_z1`/`x_z2` updated. -/
def Biquad.processAudioSample (algorithm : ℤ) (c : BiquadCoeffs F)
    (s : BiquadState F) (sample : F) : F × Option (BiquadState F) :=
  if algorithm = BiquadAlgorithm.kDirect then
    let yn := c.a0 * sample + c.a1 * s.x_z1 + c.a2 * s.x_z2
      - c.b1 * s.y_z1 - c.b2 * s.y_z2
    let s1 : BiquadState F := ⟨sample, s.x_z1, s.y_z1, s.y_z1⟩
    (yn, if -1 < yn ∧ yn < 4 then
      some { s1 with y_z1 := Biquad.readState s1 ⌊yn⌋.toNat } else none)
  else if algorithm = BiquadAlgorithm.kCanonical then
    let wn := sample - c.b1 * s.x_z1 - c.b2 * s.x_z2
    let yn := c.a0 * wn + c.a1 * s.x_z1 + c.a2 * s.x_z2
    (yn, some ⟨wn, s.x_z1, s.y_z1, s.y_z2⟩)
  else if algorithm = BiquadAlgorithm.kTransposeDirect then
    let wn := sample + s.x_z1
    let yn := c.a0 * wn + s.y_z1
    (yn, some ⟨c.a1 * wn - c.b1 * yn + s.x_z2, c.a2 * wn - c.b2 * yn,
      s.y_z1, s.y_z2⟩)
  else if algorithm = BiquadAlgorithm.kTransposeCanonical then
    let yn := c.a0 * sample + s.x_z1
    (yn, some ⟨c.a1 * sample - c.b1 * yn + s.x_z2, c.a2 * sample - c.b2 * yn,
      s.y_z1, s.y_z2⟩)
  else (sample, some s)

/-- Processing a finite input sequence sample by sample through
`Biquad::processAudioSample`, threading the delay state; `none` as soon as
one step's behaviour is undefined. -/
def Biquad.run (algorithm : ℤ) (c : BiquadCoeffs F) :
    BiquadState F → List F → Option (List F × BiquadState F)
  | s, [] => some ([], s)
  | s, x :: xs =>
    let r := Biquad.processAudioSample algorithm c s x
    match r.2 with
    | none => none
    | some s2 => (Biquad.run algorithm c s2 xs).map fun p => (r.1 :: p.1, p.2)

/-! ## AudioFilter (Source/dsp/AudioFilter.h, Source/dsp/AudioFilter.cpp)

The coefficient designer is embedded over `ℝ`: its closed-form derivations
use `tan`, `sin`, `cos`, `exp`, `log10`, `cosh` and powers, modelled by the
corresponding Mathlib real functions (C++ `pow(v, 0.5)` is modelled by
`Real.sqrt v`, `pow(10.0, e)` by real exponentiation `(10 : ℝ) ^ e`).

The `FilterAlgorithm` enum is modelled by its underlying integer (values
`0..28` in declaration order, AudioFilter.h lines 7-12) so that
unrecognized selector values (claim C7) are expressible. -/

/-- Value of `FilterAlgorithm::kLPF1P` (AudioFilter.h lines 7-12). -/
def FilterAlgorithm.kLPF1P : ℤ := 0

/-- Value of `FilterAlgorithm::kLPF1`. -/
def FilterAlgorithm.kLPF1 : ℤ := 1

/-- Value of `FilterAlgorithm::kHPF1`. -/
def FilterAlgorithm.kHPF1 : ℤ := 2

/-- Value of `FilterAlgorithm::kLPF2`. -/
def FilterAlgorithm.kLPF2 : ℤ := 3

/-- Value of `FilterAlgorithm::kHPF2`. -/
def FilterAlgorithm.kHPF2 : ℤ := 4

/-- Value of `FilterAlgorithm::kBPF2`. -/
def FilterAlgorithm.kBPF2 : ℤ := 5

/-- Value of `FilterAlgorithm::kBSF2`. -/
def FilterAlgorithm.kBSF2 : ℤ := 6

/-- Value of `FilterAlgorithm::kButterLPF2`. -/
def FilterAlgorithm.kButterLPF2 : ℤ := 7

/-- Value of `FilterAlgorithm::kButterHPF2`. -/
def FilterAlgorithm.kButterHPF2 : ℤ := 8

/-- Value of `FilterAlgorithm::kButterBPF2`. -/
def FilterAlgorithm.kButterBPF2 : ℤ := 9

/-- Value of `FilterAlgorithm::kButterBSF2`. -/
def FilterAlgorithm.kButterBSF2 : ℤ := 10

/-- Value of `FilterAlgorithm::kMMALPF2`. -/
def FilterAlgorithm.kMMALPF2 : ℤ := 11

/-- Value of `FilterAlgorithm::kMMALPF2B`. -/
def FilterAlgorithm.kMMALPF2B : ℤ := 12

/-- Value of `FilterAlgorithm::kLowShelf`. -/
def FilterAlgorithm.kLowShelf : ℤ := 13

/-- Value of `FilterAlgorithm::kHiShelf`. -/
def FilterAlgorithm.kHiShelf : ℤ := 14

/-- Value of `FilterAlgorithm::kNCQParaEQ`. -/
def FilterAlgorithm.kNCQParaEQ : ℤ := 15

/-- Value of `FilterAlgorithm::kCQParaEQ`. -/
def FilterAlgorithm.kCQParaEQ : ℤ := 16

/-- Value of `FilterAlgorithm::kLWRLPF2`. -/
def FilterAlgorithm.kLWRLPF2 : ℤ := 17

/-- Value of `FilterAlgorithm::kLWRHPF2`. -/
def FilterAlgorithm.kLWRHPF2 : ℤ := 18

/-- Value of `FilterAlgorithm::kAPF1`. -/
def FilterAlgorithm.kAPF1 : ℤ := 19

/-- Value of `FilterAlgorithm::kAPF2`. -/
def FilterAlgorithm.kAPF2 : ℤ := 20

/-- Value of `FilterAlgorithm::kResonA`. -/
def FilterAlgorithm.kResonA : ℤ := 21

/-- Value of `FilterAlgorithm::kResonB`. -/
def FilterAlgorithm.kResonB : ℤ := 22

/-- Value of `FilterAlgorithm::kMatchLP2A`. -/
def FilterAlgorithm.kMatchLP2A : ℤ := 23

/-- Value of `FilterAlgorithm::kMatchLP2B`. -/
def FilterAlgorithm.kMatchLP2B : ℤ := 24

/-- Value of `FilterAlgorithm::kMatchBP2A`. -/
def FilterAlgorithm.kMatchBP2A : ℤ := 25

/-- Value of `FilterAlgorithm::kMatchBP2B`. -/
def FilterAlgorithm.kMatchBP2B : ℤ := 26

/-- Value of `FilterAlgorithm::kImpInvLP1`. -/
def FilterAlgorithm.kImpInvLP1 : ℤ := 27

/-- Value of `FilterAlgorithm::kImpInvLP2`. -/
def FilterAlgorithm.kImpInvLP2 : ℤ := 28

/-- The constant `kSqrtTwo = pow(2.0, 0.5)` (AudioFilter.h line 14). -/
noncomputable def kSqrtTwo : ℝ := Real.sqrt 2

/-- The clamp pattern `if (v >= 0.95*M_PI/2.0) v = 0.95*M_PI/2.0;` applied
to a tangent angle argument.  It appears at exactly four sites of
`AudioFilter::recalculateCoefficients`: the half-bandwidth angles of
`kButterBPF2` (line 394), `kButterBSF2` (line 412) and `kAPF2` (line 601),
and the per-Q tangent argument of `kNCQParaEQ` (line 524). -/
noncomputable def clampAngle (v : ℝ) : ℝ :=
  if v ≥ 0.95 * Real.pi / 2 then 0.95 * Real.pi / 2 else v

/-- Coefficients of the `kImpInvLP1` branch (AudioFilter.cpp lines 59-70). -/
noncomputable def kImpInvLP1Coeffs (fc fs : ℝ) : BiquadCoeffs ℝ :=
  let T := 1 / fs
  let omega := 2 * Real.pi * fc
  let eT := Real.exp (-T * omega)
  ⟨1 - eT, 0, 0, -eT, 0, 0, 0⟩

/-- Coefficients of the `kImpInvLP2` branch (AudioFilter.cpp lines 71-86). -/
noncomputable def kImpInvLP2Coeffs (fc Q fs : ℝ) : BiquadCoeffs ℝ :=
  let alpha := 2 * Real.pi * fc / fs
  let p_Re := -alpha / (2 * Q)
  let zeta := 1 / (2 * Q)
  let p_Im := alpha * Real.sqrt (1 - zeta * zeta)
  let c_Re := (0 : ℝ)
  let c_Im := alpha / (2 * Real.sqrt (1 - zeta * zeta))
  let eP_re := Real.exp p_Re
  ⟨c_Re, -2 * (c_Re * Real.cos p_Im + c_Im * Real.sin p_Im) * Real.exp p_Re,
    0, -2 * eP_re * Real.cos p_Im, eP_re * eP_re, 0, 0⟩

/-- Coefficients of the `kMatchLP2A` (tight-fit Vicanek LPF) branch
(AudioFilter.cpp lines 88-133). -/
noncomputable def kMatchLP2ACoeffs (fc Q fs : ℝ) : BiquadCoeffs ℝ :=
  let theta_c := 2 * Real.pi * fc / fs
  let q := 1 / (2 * Q)
  let b_2 := Real.exp (-2 * q * theta_c)
  let b_1 := if q ≤ 1 then
      -2 * Real.exp (-q * theta_c) * Real.cos (Real.sqrt (1 - q * q) * theta_c)
    else
      -2 * Real.exp (-q * theta_c) * Real.cosh (Real.sqrt (q * q - 1) * theta_c)
  let B0 := (1 + b_1 + b_2) * (1 + b_1 + b_2)
  let B1 := (1 - b_1 + b_2) * (1 - b_1 + b_2)
  let B2 := -4 * b_2
  let phi_0 := 1 - Real.sin (theta_c / 2) * Real.sin (theta_c / 2)
  let phi_1 := Real.sin (theta_c / 2) * Real.sin (theta_c / 2)
  let phi_2 := 4 * phi_0 * phi_1
  let R1 := (B0 * phi_0 + B1 * phi_1 + B2 * phi_2) * (Q * Q)
  let A0 := B0
  let A1 := (R1 - A0 * phi_0) / phi_1
  let A0 := if A0 < 0 then 0 else A0
  let A1 := if A1 < 0 then 0 else A1
  let a_0 := 0.5 * (Real.sqrt A0 + Real.sqrt A1)
  let a_1 := Real.sqrt A0 - a_0
  ⟨a_0, a_1, 0, b_1, b_2, 0, 0⟩

/-- Coefficients of the `kMatchLP2B` (loose-fit Vicanek LPF) branch
(AudioFilter.cpp lines 134-170). -/
noncomputable def kMatchLP2BCoeffs (fc Q fs : ℝ) : BiquadCoeffs ℝ :=
  let theta_c := 2 * Real.pi * fc / fs
  let q := 1 / (2 * Q)
  let b_2 := Real.exp (-2 * q * theta_c)
  let b_1 := if q ≤ 1 then
      -2 * Real.exp (-q * theta_c) * Real.cos (Real.sqrt (1 - q * q) * theta_c)
    else
      -2 * Real.exp (-q * theta_c) * Real.cosh (Real.sqrt (q * q - 1) * theta_c)
  let f0 := theta_c / Real.pi
  let r0 := 1 + b_1 + b_2
  let denom := Real.sqrt ((1 - f0 * f0) * (1 - f0 * f0) + (f0 * f0) / (Q * Q))
  let r1 := ((1 - b_1 + b_2) * f0 * f0) / denom
  let a_0 := (r0 + r1) / 2
  let a_1 := r0 - a_0
  ⟨a_0, a_1, 0, b_1, b_2, 0, 0⟩

/-- Coefficients of the `kMatchBP2A` (tight-fit Vicanek BPF) branch
(AudioFilter.cpp lines 171-214). -/
noncomputable def kMatchBP2ACoeffs (fc Q fs : ℝ) : BiquadCoeffs ℝ :=
  let theta_c := 2 * Real.pi * fc / fs
  let q := 1 / (2 * Q)
  let b_2 := Real.exp (-2 * q * theta_c)
  let b_1 := if q ≤ 1 then
      -2 * Real.exp (-q * theta_c) * Real.cos (Real.sqrt (1 - q * q) * theta_c)
    else
      -2 * Real.exp (-q * theta_c) * Real.cosh (Real.sqrt (q * q - 1) * theta_c)
  let B0 := (1 + b_1 + b_2) * (1 + b_1 + b_2)
  let B1 := (1 - b_1 + b_2) * (1 - b_1 + b_2)
  let B2 := -4 * b_2
  let phi_0 := 1 - Real.sin (theta_c / 2) * Real.sin (theta_c / 2)
  let phi_1 := Real.sin (theta_c / 2) * Real.sin (theta_c / 2)
  let phi_2 := 4 * phi_0 * phi_1
  let R1 := B0 * phi_0 + B1 * phi_1 + B2 * phi_2
  let R2 := -B0 + B1 + 4 * (phi_0 - phi_1) * B2
  let A2 := (R1 - R2 * phi_1) / (4 * phi_1 * phi_1)
  let A1 := R2 + 4 * (phi_1 - phi_0) * A2
  let a_1 := -0.5 * Real.sqrt A1
  let a_0 := 0.5 * (Real.sqrt (A2 + a_1 * a_1) - a_1)
  let a_2 := -a_0 - a_1
  ⟨a_0, a_1, a_2, b_1, b_2, 0, 0⟩

/-- Coefficients of the `kMatchBP2B` (loose-fit Vicanek BPF) branch
(AudioFilter.cpp lines 215-252). -/
noncomputable def kMatchBP2BCoeffs (fc Q fs : ℝ) : BiquadCoeffs ℝ :=
  let theta_c := 2 * Real.pi * fc / fs
  let q := 1 / (2 * Q)
  let b_2 := Real.exp (-2 * q * theta_c)
  let b_1 := if q ≤ 1 then
      -2 * Real.exp (-q * theta_c) * Real.cos (Real.sqrt (1 - q * q) * theta_c)
    else
      -2 * Real.exp (-q * theta_c) * Real.cosh (Real.sqrt (q * q - 1) * theta_c)
  let f0 := theta_c / Real.pi
  let r0 := (1 + b_1 + b_2) / (Real.pi * f0 * Q)
  let denom := Real.sqrt ((1 - f0 * f0) * (1 - f0 * f0) + (f0 * f0) / (Q * Q))
  let r1 := ((1 - b_1 + b_2) * (f0 / Q)) / denom
  let a_1 := -r1 / 2
  let a_0 := (r0 - a_1) / 2
  let a_2 := -a_0 - a_1
  ⟨a_0, a_1, a_2, b_1, b_2, 0, 0⟩

/-- Coefficients of the `kLPF1P` branch (AudioFilter.cpp lines 253-268). -/
noncomputable def kLPF1PCoeffs (fc fs : ℝ) : BiquadCoeffs ℝ :=
  let theta_c := 2 * Real.pi * fc / fs
  let gamma := 2 - Real.cos theta_c
  let filter_b1 := Real.sqrt (gamma * gamma - 1) - gamma
  let filter_a0 := 1 + filter_b1
  ⟨filter_a0, 0, 0, filter_b1, 0, 0, 0⟩

/-- Coefficients of the `kLPF1` branch (AudioFilter.cpp lines 269-281). -/
noncomputable def kLPF1Coeffs (fc fs : ℝ) : BiquadCoeffs ℝ :=
  let theta_c := 2 * Real.pi * fc / fs
  let gamma := Real.cos theta_c / (1 + Real.sin theta_c)
  ⟨(1 - gamma) / 2, (1 - gamma) / 2, 0, -gamma, 0, 0, 0⟩

/-- Coefficients of the `kHPF1` branch (AudioFilter.cpp lines 282-294). -/
noncomputable def kHPF1Coeffs (fc fs : ℝ) : BiquadCoeffs ℝ :=
  let theta_c := 2 * Real.pi * fc / fs
  let gamma := Real.cos theta_c / (1 + Real.sin theta_c)
  ⟨(1 + gamma) / 2, -((1 + gamma) / 2), 0, -gamma, 0, 0, 0⟩

/-- Coefficients of the `kLPF2` branch (AudioFilter.cpp lines 295-316). -/
noncomputable def kLPF2Coeffs (fc Q fs : ℝ) : BiquadCoeffs ℝ :=
  let theta_c := 2 * Real.pi * fc / fs
  let d := 1 / Q
  let betaNumerator := 1 - (d / 2) * Real.sin theta_c
  let betaDenominator := 1 + (d / 2) * Real.sin theta_c
  let beta := 0.5 * (betaNumerator / betaDenominator)
  let gamma := (0.5 + beta) * Real.cos theta_c
  let alpha := (0.5 + beta - gamma) / 2
  ⟨alpha, 2 * alpha, alpha, -2 * gamma, 2 * beta, 0, 0⟩

/-- Coefficients of the `kHPF2` branch (AudioFilter.cpp lines 317-336). -/
noncomputable def kHPF2Coeffs (fc Q fs : ℝ) : BiquadCoeffs ℝ :=
  let theta_c := 2 * Real.pi * fc / fs
  let d := 1 / Q
  let betaNumerator := 1 - (d / 2) * Real.sin theta_c
  let betaDenominator := 1 + (d / 2) * Real.sin theta_c
  let beta := 0.5 * (betaNumerator / betaDenominator)
  let gamma := (0.5 + beta) * Real.cos theta_c
  let alpha := (0.5 + beta + gamma) / 2
  ⟨alpha, -2 * alpha, alpha, -2 * gamma, 2 * beta, 0, 0⟩

/-- Coefficients of the `kBPF2` branch (AudioFilter.cpp lines 337-349).
Note: the tangent argument `M_PI*m_freqCutoff/m_sampleRate` is NOT clamped
in the source. -/
noncomputable def kBPF2Coeffs (fc Q fs : ℝ) : BiquadCoeffs ℝ :=
  let K := Real.tan (Real.pi * fc / fs)
  let delta := K * K * Q + K + Q
  ⟨K / delta, 0, -K / delta, 2 * Q * (K * K - 1) / delta,
    (K * K * Q - K + Q) / delta, 0, 0⟩

/-- Coefficients of the `kBSF2` branch (AudioFilter.cpp lines 350-362). -/
noncomputable def kBSF2Coeffs (fc Q fs : ℝ) : BiquadCoeffs ℝ :=
  let K := Real.tan (Real.pi * fc / fs)
  let delta := K * K * Q + K + Q
  ⟨Q * (1 + K * K) / delta, 2 * Q * (K * K - 1) / delta,
    Q * (1 + K * K) / delta, 2 * Q * (K * K - 1) / delta,
    (K * K * Q - K + Q) / delta, 0, 0⟩

/-- Coefficients of the `kButterLPF2` branch (AudioFilter.cpp lines 363-375). -/
noncomputable def kButterLPF2Coeffs (fc fs : ℝ) : BiquadCoeffs ℝ :=
  let theta_c := Real.pi * fc / fs
  let C := 1 / Real.tan theta_c
  let a0v := 1 / (1 + kSqrtTwo * C + C * C)
  ⟨a0v, 2 * a0v, a0v, 2 * a0v * (1 - C * C), a0v * (1 - kSqrtTwo * C + C * C), 0, 0⟩

/-- Coefficients of the `kButterHPF2` branch (AudioFilter.cpp lines 376-388). -/
noncomputable def kButterHPF2Coeffs (fc fs : ℝ) : BiquadCoeffs ℝ :=
  let theta_c := Real.pi * fc / fs
  let C := Real.tan theta_c
  let a0v := 1 / (1 + kSqrtTwo * C + C * C)
  ⟨a0v, -2 * a0v, a0v, 2 * a0v * (C * C - 1), a0v * (1 - kSqrtTwo * C + C * C), 0, 0⟩

/-- Coefficients of the `kButterBPF2` branch (AudioFilter.cpp lines
389-406); the half-bandwidth angle `delta_c` is clamped to `0.95*π/2`
(line 394) before `tan`. -/
noncomputable def kButterBPF2Coeffs (fc Q fs : ℝ) : BiquadCoeffs ℝ :=
  let theta_c := 2 * Real.pi * fc / fs
  let BW := fc / Q
  let delta_c := clampAngle (Real.pi * BW / fs)
  let C := 1 / Real.tan delta_c
  let D := 2 * Real.cos theta_c
  let a0v := 1 / (1 + C)
  ⟨a0v, 0, -a0v, -(a0v * (C * D)), a0v * (C - 1), 0, 0⟩

/-- Coefficients of the `kButterBSF2` branch (AudioFilter.cpp lines
407-424); the half-bandwidth angle `delta_c` is clamped to `0.95*π/2`
(line 412) before `tan`. -/
noncomputable def kButterBSF2Coeffs (fc Q fs : ℝ) : BiquadCoeffs ℝ :=
  let theta_c := 2 * Real.pi * fc / fs
  let BW := fc / Q
  let delta_c := clampAngle (Real.pi * BW / fs)
  let C := Real.tan delta_c
  let D := 2 * Real.cos theta_c
  let a0v := 1 / (1 + C)
  ⟨a0v, -(a0v * D), a0v, -(a0v * D), a0v * (1 - C), 0, 0⟩

/-- Coefficients of the shared `kMMALPF2`/`kMMALPF2B` branch
(AudioFilter.cpp lines 425-456); `disableGR` is true for `kMMALPF2B`,
which forces the gain-reduction factor `g` to 1 (lines 441-443). -/
noncomputable def kMMALPF2Coeffs (fc Q fs : ℝ) (disableGR : Bool) : BiquadCoeffs ℝ :=
  let theta_c := 2 * Real.pi * fc / fs
  let resonance_dB := if 0.707 < Q then
      20 * Real.logb 10 (Q * Q / Real.sqrt (Q * Q - 0.25)) else 0
  let resonance := (Real.cos theta_c
      + Real.sin theta_c * Real.sqrt ((10 : ℝ) ^ (resonance_dB / 10) - 1))
    / ((10 : ℝ) ^ (resonance_dB / 20) * Real.sin theta_c + 1)
  let g := if disableGR then 1 else (10 : ℝ) ^ (-resonance_dB / 40)
  let filter_b1 := -2 * resonance * Real.cos theta_c
  let filter_b2 := resonance * resonance
  let filter_a0 := g * (1 + filter_b1 + filter_b2)
  ⟨filter_a0, 0, 0, filter_b1, filter_b2, 0, 0⟩

/-- Coefficients and (wet, dry) pair of the `kLowShelf` branch
(AudioFilter.cpp lines 457-476): `wet = mu - 1`, `dry = 1`. -/
noncomputable def kLowShelfResult (fc gainDb fs : ℝ) : BiquadCoeffs ℝ × ℝ × ℝ :=
  let theta_c := 2 * Real.pi * fc / fs
  let mu := (10 : ℝ) ^ (gainDb / 20)
  let beta := 4 / (1 + mu)
  let delta := beta * Real.tan (theta_c / 2)
  let gamma := (1 - delta) / (1 + delta)
  (⟨(1 - gamma) / 2, (1 - gamma) / 2, 0, -gamma, 0, 0, 0⟩, mu - 1, 1)

/-- Coefficients and (wet, dry) pair of the `kHiShelf` branch
(AudioFilter.cpp lines 477-494): `wet = mu - 1`, `dry = 1`. -/
noncomputable def kHiShelfResult (fc gainDb fs : ℝ) : BiquadCoeffs ℝ × ℝ × ℝ :=
  let theta_c := 2 * Real.pi * fc / fs
  let mu := (10 : ℝ) ^ (gainDb / 20)
  let beta := (1 + mu) / 4
  let delta := beta * Real.tan (theta_c / 2)
  let gamma := (1 - delta) / (1 + delta)
  let a0v := (1 + gamma) / 2
  (⟨a0v, -a0v, 0, -gamma, 0, 0, 0⟩, mu - 1, 1)

/-- Coefficients of the `kCQParaEQ` branch (AudioFilter.cpp lines 495-516);
boost (`gainDb ≥ 0`) and cut use different numerator/denominator sets. -/
noncomputable def kCQParaEQCoeffs (fc Q gainDb fs : ℝ) : BiquadCoeffs ℝ :=
  let K := Real.tan (Real.pi * fc / fs)
  let Vo := (10 : ℝ) ^ (gainDb / 20)
  let d0v := 1 + (1 / Q) * K + K * K
  let e0v := 1 + (1 / (Vo * Q)) * K + K * K
  let alpha := 1 + (Vo / Q) * K + K * K
  let beta := 2 * (K * K - 1)
  let gamma := 1 - (Vo / Q) * K + K * K
  let delta := 1 - (1 / Q) * K + K * K
  let eta := 1 - (1 / (Vo * Q)) * K + K * K
  if 0 ≤ gainDb then
    ⟨alpha / d0v, beta / d0v, gamma / d0v, beta / d0v, delta / d0v, 0, 0⟩
  else
    ⟨d0v / e0v, beta / e0v, delta / e0v, beta / e0v, eta / e0v, 0, 0⟩

/-- Coefficients and (wet, dry) pair of the `kNCQParaEQ` branch
(AudioFilter.cpp lines 517-545); the per-Q tangent argument
`theta_c / (2*Q)` is clamped to `0.95*π/2` (line 524) before `tan`;
`wet = mu - 1`, `dry = 1`. -/
noncomputable def kNCQParaEQResult (fc Q gainDb fs : ℝ) : BiquadCoeffs ℝ × ℝ × ℝ :=
  let theta_c := 2 * Real.pi * fc / fs
  let mu := (10 : ℝ) ^ (gainDb / 20)
  let tanArg := clampAngle (theta_c / (2 * Q))
  let zeta := 4 / (1 + mu)
  let betaNumerator := 1 - zeta * Real.tan tanArg
  let betaDenominator := 1 + zeta * Real.tan tanArg
  let beta := 0.5 * (betaNumerator / betaDenominator)
  let gamma := (0.5 + beta) * Real.cos theta_c
  let alpha := 0.5 - beta
  (⟨alpha, 0, -alpha, -2 * gamma, 2 * beta, 0, 0⟩, mu - 1, 1)

/-- Coefficients of the `kLWRLPF2` branch (AudioFilter.cpp lines 546-563). -/
noncomputable def kLWRLPF2Coeffs (fc fs : ℝ) : BiquadCoeffs ℝ :=
  let omega_c := Real.pi * fc
  let theta_c := Real.pi * fc / fs
  let k := omega_c / Real.tan theta_c
  let denominator := k * k + omega_c * omega_c + 2 * k * omega_c
  let b1_Num := -2 * k * k + 2 * omega_c * omega_c
  let b2_Num := -2 * k * omega_c + k * k + omega_c * omega_c
  ⟨omega_c * omega_c / denominator, 2 * omega_c * omega_c / denominator,
    omega_c * omega_c / denominator, b1_Num / denominator, b2_Num / denominator, 0, 0⟩

/-- Coefficients of the `kLWRHPF2` branch (AudioFilter.cpp lines 564-581). -/
noncomputable def kLWRHPF2Coeffs (fc fs : ℝ) : BiquadCoeffs ℝ :=
  let omega_c := Real.pi * fc
  let theta_c := Real.pi * fc / fs
  let k := omega_c / Real.tan theta_c
  let denominator := k * k + omega_c * omega_c + 2 * k * omega_c
  let b1_Num := -2 * k * k + 2 * omega_c * omega_c
  let b2_Num := -2 * k * omega_c + k * k + omega_c * omega_c
  ⟨k * k / denominator, -2 * k * k / denominator, k * k / denominator,
    b1_Num / denominator, b2_Num / denominator, 0, 0⟩

/-- Coefficients of the `kAPF1` branch (AudioFilter.cpp lines 582-595). -/
noncomputable def kAPF1Coeffs (fc fs : ℝ) : BiquadCoeffs ℝ :=
  let alphaNumerator := Real.tan (Real.pi * fc / fs) - 1
  let alphaDenominator := Real.tan (Real.pi * fc / fs) + 1
  let alpha := alphaNumerator / alphaDenominator
  ⟨alpha, 1, 0, alpha, 0, 0, 0⟩

/-- Coefficients of the `kAPF2` branch (AudioFilter.cpp lines 596-615);
the half-bandwidth tangent argument is clamped to `0.95*π/2` (line 601). -/
noncomputable def kAPF2Coeffs (fc Q fs : ℝ) : BiquadCoeffs ℝ :=
  let theta_c := 2 * Real.pi * fc / fs
  let BW := fc / Q
  let argTan := clampAngle (Real.pi * BW / fs)
  let alphaNumerator := Real.tan argTan - 1
  let alphaDenominator := Real.tan argTan + 1
  let alpha := alphaNumerator / alphaDenominator
  let beta := -Real.cos theta_c
  ⟨-alpha, beta * (1 - alpha), 1, beta * (1 - alpha), -alpha, 0, 0⟩

/-- Coefficients of the `kResonA` branch (AudioFilter.cpp lines 616-631). -/
noncomputable def kResonACoeffs (fc Q fs : ℝ) : BiquadCoeffs ℝ :=
  let theta_c := 2 * Real.pi * fc / fs
  let BW := fc / Q
  let filter_b2 := Real.exp (-2 * Real.pi * (BW / fs))
  let filter_b1 := ((-4) * filter_b2 / (1 + filter_b2)) * Real.cos theta_c
  let filter_a0 := (1 - filter_b2)
    * Real.sqrt (1 - filter_b1 * filter_b1 / (4 * filter_b2))
  ⟨filter_a0, 0, 0, filter_b1, filter_b2, 0, 0⟩

/-- Coefficients of the `kResonB` branch (AudioFilter.cpp lines 632-647). -/
noncomputable def kResonBCoeffs (fc Q fs : ℝ) : BiquadCoeffs ℝ :=
  let theta_c := 2 * Real.pi * fc / fs
  let BW := fc / Q
  let filter_b2 := Real.exp (-2 * Real.pi * (BW / fs))
  let filter_b1 := ((-4) * filter_b2 / (1 + filter_b2)) * Real.cos theta_c
  let filter_a0 := 1 - Real.sqrt filter_b2
  ⟨filter_a0, 0, 0 - filter_a0, filter_b1, filter_b2, 0, 0⟩

/-- The pass-through coefficient set of the `default` branch
(AudioFilter.cpp lines 648-654): array zero-filled, then `a0 = 1`. -/
def passThroughCoeffs : BiquadCoeffs ℝ := ⟨1, 0, 0, 0, 0, 0, 0⟩

/-- State of an `AudioFilter` instance: the owned `Biquad` (its coefficient
array, delay state, and realization-structure selector) plus the designer
members of AudioFilter.h lines 48-59.

The flag `m_coefficientsChanged` is used by AudioFilter.cpp (lines 18-22
and the setters) but is not declared or initialized in AudioFilter.h, so
`AudioFilter.init` below takes its initial value as a parameter. -/
structure AudioFilterState where
  biquadCoeffs : BiquadCoeffs ℝ
  biquadState : BiquadState ℝ
  biquadAlgorithm : ℤ
  m_filterAlgorithm : ℤ
  m_sampleRate : ℝ
  m_freqCutoff : ℝ
  m_Q : ℝ
  m_gainDb : ℝ
  m_wet : ℝ
  m_dry : ℝ
  m_coefficientsChanged : Bool

/-- A freshly constructed `AudioFilter` (default member initializers,
AudioFilter.h lines 51-59, and `Biquad`'s value-initialized members,
Biquad.h lines 23-25: the coefficient array is all zeros).  The
uninitialized dirty flag's value is the parameter `dirty0`. -/
def AudioFilter.init (dirty0 : Bool) : AudioFilterState :=
  { biquadCoeffs := ⟨0, 0, 0, 0, 0, 0, 0⟩
    biquadState := ⟨0, 0, 0, 0⟩
    biquadAlgorithm := BiquadAlgorithm.kDirect
    m_filterAlgorithm := FilterAlgorithm.kLPF1
    m_sampleRate := 44100
    m_freqCutoff := 1000
    m_Q := 0.707
    m_gainDb := 0
    m_wet := 1
    m_dry := 0
    m_coefficientsChanged := dirty0 }

/-- The tail of `AudioFilter::recalculateCoefficients`: store the computed
coefficient triple — `biquad.setCoefficients(biquadCoeffs)` (line 657)
together with the `m_wet`/`m_dry` writes performed in the branches. -/
def AudioFilter.applyCoeffs (s : AudioFilterState)
    (r : BiquadCoeffs ℝ × ℝ × ℝ) : AudioFilterState :=
  { s with biquadCoeffs := r.1, m_wet := r.2.1, m_dry := r.2.2 }

/-- Embedding of `AudioFilter::recalculateCoefficients` (AudioFilter.cpp
lines 47-658).  If `m_sampleRate ≤ 0` it returns immediately without
writing anything (line 48).  Otherwise the coefficient array is zero-filled
with `a0 = 1` and `m_wet = 1`, `m_dry = 0` as defaults, the branch selected
by `m_filterAlgorithm` computes the coefficient set (and for the two
shelves and `kNCQParaEQ` a non-default wet/dry pair), unknown selectors
fall to the pass-through `default` branch, and the result is handed to the
biquad. -/
noncomputable def AudioFilter.recalculateCoefficients
    (s : AudioFilterState) : AudioFilterState :=
  if s.m_sampleRate ≤ 0 then s
  else
    AudioFilter.applyCoeffs s
      (if s.m_filterAlgorithm = FilterAlgorithm.kImpInvLP1 then
        (kImpInvLP1Coeffs s.m_freqCutoff s.m_sampleRate, 1, 0)
      else if s.m_filterAlgorithm = FilterAlgorithm.kImpInvLP2 then
        (kImpInvLP2Coeffs s.m_freqCutoff s.m_Q s.m_sampleRate, 1, 0)
      else if s.m_filterAlgorithm = FilterAlgorithm.kMatchLP2A then
        (kMatchLP2ACoeffs s.m_freqCutoff s.m_Q s.m_sampleRate, 1, 0)
      else if s.m_filterAlgorithm = FilterAlgorithm.kMatchLP2B then
        (kMatchLP2BCoeffs s.m_freqCutoff s.m_Q s.m_sampleRate, 1, 0)
      else if s.m_filterAlgorithm = FilterAlgorithm.kMatchBP2A then
        (kMatchBP2ACoeffs s.m_freqCutoff s.m_Q s.m_sampleRate, 1, 0)
      else if s.m_filterAlgorithm = FilterAlgorithm.kMatchBP2B then
        (kMatchBP2BCoeffs s.m_freqCutoff s.m_Q s.m_sampleRate, 1, 0)
      else if s.m_filterAlgorithm = FilterAlgorithm.kLPF1P then
        (kLPF1PCoeffs s.m_freqCutoff s.m_sampleRate, 1, 0)
      else if s.m_filterAlgorithm = FilterAlgorithm.kLPF1 then
        (kLPF1Coeffs s.m_freqCutoff s.m_sampleRate, 1, 0)
      else if s.m_filterAlgorithm = FilterAlgorithm.kHPF1 then
        (kHPF1Coeffs s.m_freqCutoff s.m_sampleRate, 1, 0)
      else if s.m_filterAlgorithm = FilterAlgorithm.kLPF2 then
        (kLPF2Coeffs s.m_freqCutoff s.m_Q s.m_sampleRate, 1, 0)
      else if s.m_filterAlgorithm = FilterAlgorithm.kHPF2 then
        (kHPF2Coeffs s.m_freqCutoff s.m_Q s.m_sampleRate, 1, 0)
      else if s.m_filterAlgorithm = FilterAlgorithm.kBPF2 then
        (kBPF2Coeffs s.m_freqCutoff s.m_Q s.m_sampleRate, 1, 0)
      else if s.m_filterAlgorithm = FilterAlgorithm.kBSF2 then
        (kBSF2Coeffs s.m_freqCutoff s.m_Q s.m_sampleRate, 1, 0)
      else if s.m_filterAlgorithm = FilterAlgorithm.kButterLPF2 then
        (kButterLPF2Coeffs s.m_freqCutoff s.m_sampleRate, 1, 0)
      else if s.m_filterAlgorithm = FilterAlgorithm.kButterHPF2 then
        (kButterHPF2Coeffs s.m_freqCutoff s.m_sampleRate, 1, 0)
      else if s.m_filterAlgorithm = FilterAlgorithm.kButterBPF2 then
        (kButterBPF2Coeffs s.m_freqCutoff s.m_Q s.m_sampleRate, 1, 0)
      else if s.m_filterAlgorithm = FilterAlgorithm.kButterBSF2 then
        (kButterBSF2Coeffs s.m_freqCutoff s.m_Q s.m_sampleRate, 1, 0)
      else if s.m_filterAlgorithm = FilterAlgorithm.kMMALPF2
          ∨ s.m_filterAlgorithm = FilterAlgorithm.kMMALPF2B then
        (kMMALPF2Coeffs s.m_freqCutoff s.m_Q s.m_sampleRate
          (decide (s.m_filterAlgorithm = FilterAlgorithm.kMMALPF2B)), 1, 0)
      else if s.m_filterAlgorithm = FilterAlgorithm.kLowShelf then
        kLowShelfResult s.m_freqCutoff s.m_gainDb s.m_sampleRate
      else if s.m_filterAlgorithm = FilterAlgorithm.kHiShelf then
        kHiShelfResult s.m_freqCutoff s.m_gainDb s.m_sampleRate
      else if s.m_filterAlgorithm = FilterAlgorithm.kCQParaEQ then
        (kCQParaEQCoeffs s.m_freqCutoff s.m_Q s.m_gainDb s.m_sampleRate, 1, 0)
      else if s.m_filterAlgorithm = FilterAlgorithm.kNCQParaEQ then
        kNCQParaEQResult s.m_freqCutoff s.m_Q s.m_gainDb s.m_sampleRate
      else if s.m_filterAlgorithm = FilterAlgorithm.kLWRLPF2 then
        (kLWRLPF2Coeffs s.m_freqCutoff s.m_sampleRate, 1, 0)
      else if s.m_filterAlgorithm = FilterAlgorithm.kLWRHPF2 then
        (kLWRHPF2Coeffs s.m_freqCutoff s.m_sampleRate, 1, 0)
      else if s.m_filterAlgorithm = FilterAlgorithm.kAPF1 then
        (kAPF1Coeffs s.m_freqCutoff s.m_sampleRate, 1, 0)
      else if s.m_filterAlgorithm = FilterAlgorithm.kAPF2 then
        (kAPF2Coeffs s.m_freqCutoff s.m_Q s.m_sampleRate, 1, 0)
      else if s.m_filterAlgorithm = FilterAlgorithm.kResonA then
        (kResonACoeffs s.m_freqCutoff s.m_Q s.m_sampleRate, 1, 0)
      else if s.m_filterAlgorithm = FilterAlgorithm.kResonB then
        (kResonBCoeffs s.m_freqCutoff s.m_Q s.m_sampleRate, 1, 0)
      else
        (passThroughCoeffs, 1, 0))

/-- Embedding of `AudioFilter::setAlgorithm` (AudioFilter.cpp lines 27-30):
store the selector, mark the coefficient set dirty, recompute nothing. -/
def AudioFilter.setAlgorithm (s : AudioFilterState)
    (newAlgorithm : ℤ) : AudioFilterState :=
  { s with m_filterAlgorithm := newAlgorithm, m_coefficientsChanged := true }

/-- Embedding of `AudioFilter::setCutoff` (AudioFilter.cpp lines 32-35). -/
def AudioFilter.setCutoff (s : AudioFilterState)
    (newCutoff : ℝ) : AudioFilterState :=
  { s with m_freqCutoff := newCutoff, m_coefficientsChanged := true }

/-- Embedding of `AudioFilter::setQ` (AudioFilter.cpp lines 37-40):
`m_Q = newQ > 0 ? newQ : 0.707`. -/
noncomputable def AudioFilter.setQ (s : AudioFilterState) (newQ : ℝ) : AudioFilterState :=
  { s with
    m_Q := (if 0 < newQ then newQ else 0.707)
    m_coefficientsChanged := true }

/-- Embedding of `AudioFilter::setGainDb` (AudioFilter.cpp lines 42-45). -/
def AudioFilter.setGainDb (s : AudioFilterState)
    (newGainDb : ℝ) : AudioFilterState :=
  { s with m_gainDb := newGainDb, m_coefficientsChanged := true }

/-- Embedding of `AudioFilter::prepare` (AudioFilter.cpp lines 7-11):
store the sample rate, clear the biquad delay state (`biquad.reset()`),
and call `recalculateCoefficients`. -/
noncomputable def AudioFilter.prepare (s : AudioFilterState)
    (sampleRate : ℝ) : AudioFilterState :=
  AudioFilter.recalculateCoefficients
    { s with m_sampleRate := sampleRate, biquadState := ⟨0, 0, 0, 0⟩ }

/-- Embedding of `AudioFilter::reset` (AudioFilter.cpp lines 13-15): clear
the biquad delay state only. -/
def AudioFilter.reset (s : AudioFilterState) : AudioFilterState :=
  { s with biquadState := ⟨0, 0, 0, 0⟩ }

/-- The dirty-flag check at the top of `AudioFilter::processAudioSample`
(AudioFilter.cpp lines 18-22): recompute the coefficients and clear the
flag when it is set, otherwise do nothing. -/
noncomputable def AudioFilter.refreshCoefficients
    (s : AudioFilterState) : AudioFilterState :=
  if s.m_coefficientsChanged then
    { AudioFilter.recalculateCoefficients s with m_coefficientsChanged := false }
  else s

/-- Embedding of `AudioFilter::processAudioSample` (AudioFilter.cpp lines
17-25): lazily refresh the coefficients, run the biquad, and return
`m_dry * sample + m_wet * biquad_output` with the updated engine state
(`none` when the biquad step's behaviour is undefined). -/
noncomputable def AudioFilter.processAudioSample (s : AudioFilterState)
    (sample : ℝ) : ℝ × Option AudioFilterState :=
  let s1 := AudioFilter.refreshCoefficients s
  let r := Biquad.processAudioSample s1.biquadAlgorithm s1.biquadCoeffs
    s1.biquadState sample
  (s1.m_dry * sample + s1.m_wet * r.1,
    r.2.map fun bs => { s1 with biquadState := bs })

/-- Processing a finite input sequence through `AudioFilter`, threading the
engine state; `none` as soon as one step's behaviour is undefined. -/
noncomputable def AudioFilter.processSeq :
    AudioFilterState → List ℝ → Option (List ℝ × AudioFilterState)
  | s, [] => some ([], s)
  | s, x :: xs =>
    let r := AudioFilter.processAudioSample s x
    match r.2 with
    | none => none
    | some s2 => (AudioFilter.processSeq s2 xs).map fun p => (r.1 :: p.1, p.2)

/-- The `kBPF2` derivation with the clamp that the spec's numeric edge
policy (§4.1) mandates applied to its tangent angle, for comparison with
the source's unclamped `kBPF2` branch. -/
noncomputable def kBPF2CoeffsSpecClamped (fc Q fs : ℝ) : BiquadCoeffs ℝ :=
  let K := Real.tan (clampAngle (Real.pi * fc / fs))
  let delta := K * K * Q + K + Q
  ⟨K / delta, 0, -K / delta, 2 * Q * (K * K - 1) / delta,
    (K * K * Q - K + Q) / delta, 0, 0⟩

/-! ## Helper lemmas -/

/-- The guard on AudioFilter.cpp line 48: with a non-positive stored sample
rate, `recalculateCoefficients` writes nothing at all. -/
lemma recalculate_nonpos (s : AudioFilterState) (h : s.m_sampleRate ≤ 0) :
    AudioFilter.recalculateCoefficients s = s := by
  unfold AudioFilter.recalculateCoefficients
  rw [if_pos h]

/-- Whatever branch runs, `recalculateCoefficients` only ever writes the
coefficient array and the wet/dry mix; all other fields are untouched. -/
lemma recalculate_preserves (s : AudioFilterState) :
    (AudioFilter.recalculateCoefficients s).biquadState = s.biquadState
    ∧ (AudioFilter.recalculateCoefficients s).biquadAlgorithm = s.biquadAlgorithm
    ∧ (AudioFilter.recalculateCoefficients s).m_filterAlgorithm = s.m_filterAlgorithm
    ∧ (AudioFilter.recalculateCoefficients s).m_sampleRate = s.m_sampleRate
    ∧ (AudioFilter.recalculateCoefficients s).m_freqCutoff = s.m_freqCutoff
    ∧ (AudioFilter.recalculateCoefficients s).m_Q = s.m_Q
    ∧ (AudioFilter.recalculateCoefficients s).m_gainDb = s.m_gainDb
    ∧ (AudioFilter.recalculateCoefficients s).m_coefficientsChanged
        = s.m_coefficientsChanged := by
  by_cases hg : s.m_sampleRate ≤ 0
  · rw [recalculate_nonpos s hg]
    exact ⟨rfl, rfl, rfl, rfl, rfl, rfl, rfl, rfl⟩
  · unfold AudioFilter.recalculateCoefficients
    rw [if_neg hg]
    exact ⟨rfl, rfl, rfl, rfl, rfl, rfl, rfl, rfl⟩

/-- With a positive sample rate and a selector outside `0..28`, the
`default` branch runs: pass-through coefficients, `wet = 1`, `dry = 0`. -/
lemma recalculate_default (s : AudioFilterState)
    (h1 : ¬ s.m_sampleRate ≤ 0)
    (h2 : ¬ (0 ≤ s.m_filterAlgorithm ∧ s.m_filterAlgorithm ≤ 28)) :
    AudioFilter.recalculateCoefficients s
      = { s with biquadCoeffs := passThroughCoeffs, m_wet := 1, m_dry := 0 } := by
  have hk : ∀ k : ℤ, 0 ≤ k → k ≤ 28 → s.m_filterAlgorithm ≠ k := by
    intro k hk1 hk2 he
    exact h2 ⟨by omega, by omega⟩
  unfold AudioFilter.recalculateCoefficients
  rw [if_neg h1,
    if_neg (hk FilterAlgorithm.kImpInvLP1 (by decide) (by decide)),
    if_neg (hk FilterAlgorithm.kImpInvLP2 (by decide) (by decide)),
    if_neg (hk FilterAlgorithm.kMatchLP2A (by decide) (by decide)),
    if_neg (hk FilterAlgorithm.kMatchLP2B (by decide) (by decide)),
    if_neg (hk FilterAlgorithm.kMatchBP2A (by decide) (by decide)),
    if_neg (hk FilterAlgorithm.kMatchBP2B (by decide) (by decide)),
    if_neg (hk FilterAlgorithm.kLPF1P (by decide) (by decide)),
    if_neg (hk FilterAlgorithm.kLPF1 (by decide) (by decide)),
    if_neg (hk FilterAlgorithm.kHPF1 (by decide) (by decide)),
    if_neg (hk FilterAlgorithm.kLPF2 (by decide) (by decide)),
    if_neg (hk FilterAlgorithm.kHPF2 (by decide) (by decide)),
    if_neg (hk FilterAlgorithm.kBPF2 (by decide) (by decide)),
    if_neg (hk FilterAlgorithm.kBSF2 (by decide) (by decide)),
    if_neg (hk FilterAlgorithm.kButterLPF2 (by decide) (by decide)),
    if_neg (hk FilterAlgorithm.kButterHPF2 (by decide) (by decide)),
    if_neg (hk FilterAlgorithm.kButterBPF2 (by decide) (by decide)),
    if_neg (hk FilterAlgorithm.kButterBSF2 (by decide) (by decide)),
    if_neg (not_or.mpr ⟨hk FilterAlgorithm.kMMALPF2 (by decide) (by decide),
      hk FilterAlgorithm.kMMALPF2B (by decide) (by decide)⟩),
    if_neg (hk FilterAlgorithm.kLowShelf (by decide) (by decide)),
    if_neg (hk FilterAlgorithm.kHiShelf (by decide) (by decide)),
    if_neg (hk FilterAlgorithm.kCQParaEQ (by decide) (by decide)),
    if_neg (hk FilterAlgorithm.kNCQParaEQ (by decide) (by decide)),
    if_neg (hk FilterAlgorithm.kLWRLPF2 (by decide) (by decide)),
    if_neg (hk FilterAlgorithm.kLWRHPF2 (by decide) (by decide)),
    if_neg (hk FilterAlgorithm.kAPF1 (by decide) (by decide)),
    if_neg (hk FilterAlgorithm.kAPF2 (by decide) (by decide)),
    if_neg (hk FilterAlgorithm.kResonA (by decide) (by decide)),
    if_neg (hk FilterAlgorithm.kResonB (by decide) (by decide))]
  rfl

/-- When the dirty flag is clear, the lazy refresh does nothing. -/
lemma refresh_of_not_dirty (s : AudioFilterState)
    (h : s.m_coefficientsChanged = false) :
    AudioFilter.refreshCoefficients s = s := by
  unfold AudioFilter.refreshCoefficients
  rw [h]
  simp

/-- The lazy refresh always leaves the dirty flag clear. -/
lemma refresh_not_dirty (s : AudioFilterState) :
    (AudioFilter.refreshCoefficients s).m_coefficientsChanged = false := by
  unfold AudioFilter.refreshCoefficients
  cases h : s.m_coefficientsChanged <;> simp [h]

/-- The lazy refresh is idempotent. -/
lemma refresh_idem (s : AudioFilterState) :
    AudioFilter.refreshCoefficients (AudioFilter.refreshCoefficients s)
      = AudioFilter.refreshCoefficients s :=
  refresh_of_not_dirty _ (refresh_not_dirty s)

/-- A direct-form biquad step with pass-through coefficients outputs the
input unchanged (the state update is defined for `-1 < x < 4`). -/
lemma biquad_direct_passthrough (s : BiquadState ℝ) (x : ℝ)
    (h1 : -1 < x) (h2 : x < 4) :
    Biquad.processAudioSample BiquadAlgorithm.kDirect passThroughCoeffs s x
      = (x, some ⟨x, s.x_z1,
          Biquad.readState ⟨x, s.x_z1, s.y_z1, s.y_z1⟩ ⌊x⌋.toNat, s.y_z1⟩) := by
  unfold Biquad.processAudioSample passThroughCoeffs
  norm_num
  intro h
  exact absurd (h h1) (not_le.mpr h2)

/-- A direct-form biquad step with pass-through coefficients at a sample
outside `(-1, 4)` hits the undefined `s[(size_t)yn]` state write. -/
lemma biquad_direct_passthrough_oob (s : BiquadState ℝ) (x : ℝ)
    (h : ¬ (-1 < x ∧ x < 4)) :
    (Biquad.processAudioSample BiquadAlgorithm.kDirect
      passThroughCoeffs s x).2 = none := by
  unfold Biquad.processAudioSample passThroughCoeffs
  norm_num
  intro h1 h2
  exact absurd ⟨h1, h2⟩ h

/-- Invariant for pass-through processing: pass-through coefficients,
direct-form structure, unit wet, zero dry, clean dirty flag. -/
def directPassInvariant (s : AudioFilterState) : Prop :=
  s.biquadCoeffs = passThroughCoeffs
  ∧ s.biquadAlgorithm = BiquadAlgorithm.kDirect
  ∧ s.m_wet = 1 ∧ s.m_dry = 0 ∧ s.m_coefficientsChanged = false

/-- One engine step under the pass-through invariant returns the sample
unchanged and preserves the invariant, for samples in `(-1, 4)`. -/
lemma pt_step (s : AudioFilterState) (hI : directPassInvariant s) (x : ℝ)
    (h1 : -1 < x) (h2 : x < 4) :
    ∃ s2, AudioFilter.processAudioSample s x = (x, some s2)
      ∧ directPassInvariant s2 := by
  obtain ⟨hc, ha, hw, hd, hf⟩ := hI
  have hrefresh := refresh_of_not_dirty s hf
  refine ⟨{ s with biquadState := ⟨x, s.biquadState.x_z1,
      Biquad.readState ⟨x, s.biquadState.x_z1, s.biquadState.y_z1,
        s.biquadState.y_z1⟩ ⌊x⌋.toNat, s.biquadState.y_z1⟩ }, ?_, ?_⟩
  · simp only [AudioFilter.processAudioSample, hrefresh, ha, hc,
      biquad_direct_passthrough s.biquadState x h1 h2, Option.map_some']
    simp [hw, hd]
  · exact ⟨hc, ha, hw, hd, hf⟩

/-- Processing a finite sequence of in-range samples under the pass-through
invariant returns the sequence unchanged. -/
lemma pt_run (xs : List ℝ) : ∀ s : AudioFilterState, directPassInvariant s →
    (∀ x ∈ xs, -1 < x ∧ x < 4) →
    ∃ s2, AudioFilter.processSeq s xs = some (xs, s2) := by
  induction xs with
  | nil => exact fun s _ _ => ⟨s, rfl⟩
  | cons x xs ih =>
    intro s hI hmem
    obtain ⟨s2, hstep, hI2⟩ :=
      pt_step s hI x (hmem x (by simp)).1 (hmem x (by simp)).2
    obtain ⟨s3, hrun⟩ := ih s2 hI2 fun z hz => hmem z (by simp [hz])
    refine ⟨s3, ?_⟩
    simp only [AudioFilter.processSeq, hstep, hrun, Option.map_some']

/-! ## Claim theorems -/

/-- C1 (code_bug evaluation): the four realization structures of
`Biquad::processAudioSample` do not produce equal output sequences in exact
arithmetic, even from zeroed delay state.  With coefficients
`a0 = 2, a1 = 1, a2 = b1 = b2 = 0` and input `[1, 0]`, the canonical and
transposed-canonical structures produce `[2, 1]` (the value of the
specified recurrence), while the transposed-direct structure produces
`[2, 2]` (its `x_z1`/`y_z1` registers are swapped relative to the comments
on Biquad.cpp lines 35-36).  With coefficients
`a0 = 1/2, b1 = -1`, rest `0`, and input `[1, 0]`, the direct structure
produces `[1/2, 1]` instead of the canonical `[1/2, 1/2]`, because line 21
stores `s[(size_t)yn]` rather than `yn` into `y_z1`. -/
theorem c1_structures_not_equivalent :
    Biquad.run (F := ℚ) BiquadAlgorithm.kTransposeDirect
        ⟨2, 1, 0, 0, 0, 0, 0⟩ ⟨0, 0, 0, 0⟩ [1, 0] = some ([2, 2], ⟨1, 0, 0, 0⟩)
    ∧ Biquad.run (F := ℚ) BiquadAlgorithm.kCanonical
        ⟨2, 1, 0, 0, 0, 0, 0⟩ ⟨0, 0, 0, 0⟩ [1, 0] = some ([2, 1], ⟨0, 1, 0, 0⟩)
    ∧ Biquad.run (F := ℚ) BiquadAlgorithm.kTransposeCanonical
        ⟨2, 1, 0, 0, 0, 0, 0⟩ ⟨0, 0, 0, 0⟩ [1, 0] = some ([2, 1], ⟨0, 0, 0, 0⟩)
    ∧ Biquad.run (F := ℚ) BiquadAlgorithm.kDirect
        ⟨1/2, 0, 0, -1, 0, 0, 0⟩ ⟨0, 0, 0, 0⟩ [1, 0]
        = some ([1/2, 1], ⟨0, 1, 1, 1⟩)
    ∧ Biquad.run (F := ℚ) BiquadAlgorithm.kCanonical
        ⟨1/2, 0, 0, -1, 0, 0, 0⟩ ⟨0, 0, 0, 0⟩ [1, 0]
        = some ([1/2, 1/2], ⟨1, 1, 0, 0⟩)
    ∧ ((2 : ℚ) ≠ 1)
    ∧ ((1 : ℚ) ≠ 1/2) := by
  refine ⟨?_, ?_, ?_, ?_, ?_, by norm_num, by norm_num⟩ <;>
    norm_num [Biquad.run, Biquad.processAudioSample, Biquad.readState,
      BiquadAlgorithm.kDirect, BiquadAlgorithm.kCanonical,
      BiquadAlgorithm.kTransposeDirect, BiquadAlgorithm.kTransposeCanonical]

/-- C2 (code_bug evaluation): the direct-form branch with coefficients
`a0 = 1/2`, rest `0`, zeroed state and input `x[n] = 1` returns
`y[n] = 1/2` and updates the x-history correctly, but stores `1` — the
value read from `s[(size_t)0.5] = s[0]`, i.e. the freshly written
`x[n]` — into `y_z1`, not `y[n] = 1/2` as the claim (and the spec and the
code's own comment) require. -/
theorem c2_direct_form_y_history_bug :
    Biquad.processAudioSample (F := ℚ) BiquadAlgorithm.kDirect
        ⟨1/2, 0, 0, 0, 0, 0, 0⟩ ⟨0, 0, 0, 0⟩ 1
      = (1/2, some ⟨1, 0, 1, 0⟩)
    ∧ ((1 : ℚ) ≠ 1/2) := by
  refine ⟨?_, by norm_num⟩
  norm_num [Biquad.processAudioSample, Biquad.readState, BiquadAlgorithm.kDirect]

/-- C10: if the realization-structure selector holds a value that is none
of the four defined structures, `Biquad::processAudioSample` returns the
input sample unchanged and leaves all four delay-state registers unchanged
(the fall-through `return sample;` on Biquad.cpp line 52). -/
theorem c10_unknown_structure_passthrough (algorithm : ℤ)
    (c : BiquadCoeffs F) (s : BiquadState F) (x : F)
    (h0 : algorithm ≠ BiquadAlgorithm.kDirect)
    (h1 : algorithm ≠ BiquadAlgorithm.kCanonical)
    (h2 : algorithm ≠ BiquadAlgorithm.kTransposeDirect)
    (h3 : algorithm ≠ BiquadAlgorithm.kTransposeCanonical) :
    Biquad.processAudioSample algorithm c s x = (x, some s) := by
  unfold Biquad.processAudioSample
  rw [if_neg h0, if_neg h1, if_neg h2, if_neg h3]

/-- Witness for C10 at the concrete out-of-range selector `4`. -/
theorem c10_unknown_structure_passthrough_witness :
    ((4 : ℤ) ≠ BiquadAlgorithm.kDirect
      ∧ (4 : ℤ) ≠ BiquadAlgorithm.kCanonical
      ∧ (4 : ℤ) ≠ BiquadAlgorithm.kTransposeDirect
      ∧ (4 : ℤ) ≠ BiquadAlgorithm.kTransposeCanonical)
    ∧ Biquad.processAudioSample (F := ℚ) 4 ⟨1, 2, 3, 4, 5, 6, 7⟩
        ⟨1, 2, 3, 4⟩ 9 = (9, some ⟨1, 2, 3, 4⟩) :=
  ⟨⟨by decide, by decide, by decide, by decide⟩,
    c10_unknown_structure_passthrough 4 ⟨1, 2, 3, 4, 5, 6, 7⟩ ⟨1, 2, 3, 4⟩ 9
      (by decide) (by decide) (by decide) (by decide)⟩


/-- C3 (counterexample): calling `prepare` with sample rate `0` on a fresh
engine does not produce the pass-through coefficient set: the active `a0`
stays `0` (the value-initialized coefficient array), not `1` — `prepare`'s
recomputation returns without writing anything. -/
theorem c3_prepare_nonpositive_counterexample :
    (AudioFilter.prepare (AudioFilter.init false) 0).biquadCoeffs.a0 = 0
    ∧ ((0 : ℝ) ≠ 1) := by
  constructor
  · unfold AudioFilter.prepare
    rw [recalculate_nonpos _ (by norm_num [AudioFilter.init])]
    rfl
  · norm_num

/-- C3 (amended): if `prepare` is called with `sampleRate ≤ 0`, no error is
signaled; the sample rate is stored and the delay state cleared, but the
active coefficient set, wet/dry mix and every other field are left exactly
as they were — they are not reset to pass-through. -/
theorem c3_prepare_nonpositive_leaves_coefficients (s : AudioFilterState)
    (r : ℝ) (hr : r ≤ 0) :
    AudioFilter.prepare s r
      = { s with m_sampleRate := r, biquadState := ⟨0, 0, 0, 0⟩ } := by
  unfold AudioFilter.prepare
  exact recalculate_nonpos _ hr

/-- Witness for C3 at `s = AudioFilter.init false`, `r = -1`. -/
theorem c3_prepare_nonpositive_leaves_coefficients_witness :
    ((-1 : ℝ) ≤ 0)
    ∧ AudioFilter.prepare (AudioFilter.init false) (-1)
      = { AudioFilter.init false with
          m_sampleRate := -1
          biquadState := ⟨0, 0, 0, 0⟩ } :=
  ⟨by norm_num,
    c3_prepare_nonpositive_leaves_coefficients (AudioFilter.init false) (-1)
      (by norm_num)⟩

/-- C4 (counterexample): immediately after construction the active
coefficient set is not pass-through: `Biquad`'s value-initialized array has
`a0 = 0` (not `1`), and processing the sample `1` returns `0`, not `1`. -/
theorem c4_initial_coefficients_counterexample :
    (AudioFilter.init false).biquadCoeffs.a0 = 0
    ∧ (AudioFilter.processAudioSample (AudioFilter.init false) 1).1 = 0
    ∧ ((0 : ℝ) ≠ 1) := by
  refine ⟨rfl, ?_, by norm_num⟩
  norm_num [AudioFilter.processAudioSample, AudioFilter.refreshCoefficients,
    AudioFilter.init, Biquad.processAudioSample, BiquadAlgorithm.kDirect]

/-- C4 (amended): immediately after construction `wet = 1` and `dry = 0`
hold, but the biquad's coefficient array is value-initialized to all zeros
(including `a0 = 0`), so processing any sample returns `0` (silence), not
the input; `reset` clears only the delay state and leaves the active
coefficient set unchanged. -/
theorem c4_initial_state_amended (d : Bool) (s : AudioFilterState) (x : ℝ) :
    (AudioFilter.init d).biquadCoeffs = ⟨0, 0, 0, 0, 0, 0, 0⟩
    ∧ (AudioFilter.init d).m_wet = 1
    ∧ (AudioFilter.init d).m_dry = 0
    ∧ (AudioFilter.processAudioSample (AudioFilter.init false) x).1 = 0
    ∧ (AudioFilter.reset s).biquadCoeffs = s.biquadCoeffs
    ∧ (AudioFilter.reset s).biquadState = ⟨0, 0, 0, 0⟩ := by
  refine ⟨rfl, rfl, rfl, ?_, rfl, rfl⟩
  norm_num [AudioFilter.processAudioSample, AudioFilter.refreshCoefficients,
    AudioFilter.init, Biquad.processAudioSample, BiquadAlgorithm.kDirect]

/-- C8: for every `q ≤ 0` and every stored algorithm, cutoff, gain and
positive sample rate, `setQ q` followed by a recomputation yields exactly
the same engine state (in particular the same coefficient set) as
`setQ 0.707` followed by a recomputation. -/
theorem c8_setQ_clamp_equivalence (s : AudioFilterState) (q : ℝ)
    (hq : q ≤ 0) (_hsr : 0 < s.m_sampleRate) :
    AudioFilter.recalculateCoefficients (AudioFilter.setQ s q)
      = AudioFilter.recalculateCoefficients (AudioFilter.setQ s 0.707) := by
  have h : AudioFilter.setQ s q = AudioFilter.setQ s 0.707 := by
    unfold AudioFilter.setQ
    rw [if_neg (not_lt.mpr hq), if_pos (by norm_num : (0 : ℝ) < 0.707)]
  rw [h]

/-- Witness for C8 at `s = AudioFilter.init false`, `q = -1`. -/
theorem c8_setQ_clamp_equivalence_witness :
    ((-1 : ℝ) ≤ 0)
    ∧ (0 : ℝ) < (AudioFilter.init false).m_sampleRate
    ∧ AudioFilter.recalculateCoefficients
        (AudioFilter.setQ (AudioFilter.init false) (-1))
      = AudioFilter.recalculateCoefficients
        (AudioFilter.setQ (AudioFilter.init false) 0.707) :=
  ⟨by norm_num, by norm_num [AudioFilter.init],
    c8_setQ_clamp_equivalence (AudioFilter.init false) (-1) (by norm_num)
      (by norm_num [AudioFilter.init])⟩

/-- C9: if `recalculateCoefficients` runs while the stored sample rate is
non-positive, it returns without writing anything: the whole engine state —
active coefficients, wet/dry mix, delay-state registers, parameters — is
exactly as it was before the call. -/
theorem c9_recalculate_nonpositive_noop (s : AudioFilterState)
    (h : s.m_sampleRate ≤ 0) :
    AudioFilter.recalculateCoefficients s = s :=
  recalculate_nonpos s h

/-- Witness for C9 at a state with sample rate `-5`. -/
theorem c9_recalculate_nonpositive_noop_witness :
    ({ AudioFilter.init false with m_sampleRate := -5 }
        : AudioFilterState).m_sampleRate ≤ 0
    ∧ AudioFilter.recalculateCoefficients
        { AudioFilter.init false with m_sampleRate := -5 }
      = { AudioFilter.init false with m_sampleRate := -5 } :=
  ⟨by norm_num [AudioFilter.init],
    c9_recalculate_nonpositive_noop
      { AudioFilter.init false with m_sampleRate := -5 }
      (by norm_num [AudioFilter.init])⟩

/-- For any state whose selector is `kBPF2` and whose sample rate is
positive, `recalculateCoefficients` runs the `kBPF2` branch. -/
lemma recalculate_kBPF2 (s : AudioFilterState)
    (h1 : ¬ s.m_sampleRate ≤ 0)
    (h2 : s.m_filterAlgorithm = FilterAlgorithm.kBPF2) :
    AudioFilter.recalculateCoefficients s
      = AudioFilter.applyCoeffs s
          (kBPF2Coeffs s.m_freqCutoff s.m_Q s.m_sampleRate, 1, 0) := by
  unfold AudioFilter.recalculateCoefficients
  rw [if_neg h1, h2,
    if_neg (by decide : ¬ (FilterAlgorithm.kBPF2 = FilterAlgorithm.kImpInvLP1)),
    if_neg (by decide : ¬ (FilterAlgorithm.kBPF2 = FilterAlgorithm.kImpInvLP2)),
    if_neg (by decide : ¬ (FilterAlgorithm.kBPF2 = FilterAlgorithm.kMatchLP2A)),
    if_neg (by decide : ¬ (FilterAlgorithm.kBPF2 = FilterAlgorithm.kMatchLP2B)),
    if_neg (by decide : ¬ (FilterAlgorithm.kBPF2 = FilterAlgorithm.kMatchBP2A)),
    if_neg (by decide : ¬ (FilterAlgorithm.kBPF2 = FilterAlgorithm.kMatchBP2B)),
    if_neg (by decide : ¬ (FilterAlgorithm.kBPF2 = FilterAlgorithm.kLPF1P)),
    if_neg (by decide : ¬ (FilterAlgorithm.kBPF2 = FilterAlgorithm.kLPF1)),
    if_neg (by decide : ¬ (FilterAlgorithm.kBPF2 = FilterAlgorithm.kHPF1)),
    if_neg (by decide : ¬ (FilterAlgorithm.kBPF2 = FilterAlgorithm.kLPF2)),
    if_neg (by decide : ¬ (FilterAlgorithm.kBPF2 = FilterAlgorithm.kHPF2)),
    if_pos (rfl : FilterAlgorithm.kBPF2 = FilterAlgorithm.kBPF2)]

/-- One engine step equals the same step started from the refreshed state
(the refresh is idempotent). -/
lemma process_refresh (s : AudioFilterState) (x : ℝ) :
    AudioFilter.processAudioSample s x
      = AudioFilter.processAudioSample (AudioFilter.refreshCoefficients s) x := by
  unfold AudioFilter.processAudioSample
  rw [refresh_idem]

/-- C5: each of the four parameter setters of AudioFilter.cpp stores its
one target parameter (`setQ` substituting `0.707` for any value `≤ 0`),
marks the coefficient set dirty, leaves every other parameter and the
active coefficients, wet/dry mix and delay state unchanged, and performs no
recomputation; the recomputation happens only inside the next
`processAudioSample` call (its `refreshCoefficients` prologue) when the
dirty flag is set, which also clears the flag. -/
theorem c5_setters_lazy_recompute (s : AudioFilterState) (a : ℤ)
    (f q g x : ℝ) :
    ((AudioFilter.setAlgorithm s a).m_filterAlgorithm = a
      ∧ (AudioFilter.setAlgorithm s a).m_coefficientsChanged = true
      ∧ (AudioFilter.setAlgorithm s a).m_freqCutoff = s.m_freqCutoff
      ∧ (AudioFilter.setAlgorithm s a).m_Q = s.m_Q
      ∧ (AudioFilter.setAlgorithm s a).m_gainDb = s.m_gainDb
      ∧ (AudioFilter.setAlgorithm s a).biquadCoeffs = s.biquadCoeffs
      ∧ (AudioFilter.setAlgorithm s a).m_wet = s.m_wet
      ∧ (AudioFilter.setAlgorithm s a).m_dry = s.m_dry
      ∧ (AudioFilter.setAlgorithm s a).biquadState = s.biquadState)
    ∧ ((AudioFilter.setCutoff s f).m_freqCutoff = f
      ∧ (AudioFilter.setCutoff s f).m_coefficientsChanged = true
      ∧ (AudioFilter.setCutoff s f).m_filterAlgorithm = s.m_filterAlgorithm
      ∧ (AudioFilter.setCutoff s f).m_Q = s.m_Q
      ∧ (AudioFilter.setCutoff s f).m_gainDb = s.m_gainDb
      ∧ (AudioFilter.setCutoff s f).biquadCoeffs = s.biquadCoeffs
      ∧ (AudioFilter.setCutoff s f).m_wet = s.m_wet
      ∧ (AudioFilter.setCutoff s f).m_dry = s.m_dry
      ∧ (AudioFilter.setCutoff s f).biquadState = s.biquadState)
    ∧ ((AudioFilter.setQ s q).m_Q = (if 0 < q then q else 0.707)
      ∧ (AudioFilter.setQ s q).m_coefficientsChanged = true
      ∧ (AudioFilter.setQ s q).m_filterAlgorithm = s.m_filterAlgorithm
      ∧ (AudioFilter.setQ s q).m_freqCutoff = s.m_freqCutoff
      ∧ (AudioFilter.setQ s q).m_gainDb = s.m_gainDb
      ∧ (AudioFilter.setQ s q).biquadCoeffs = s.biquadCoeffs
      ∧ (AudioFilter.setQ s q).m_wet = s.m_wet
      ∧ (AudioFilter.setQ s q).m_dry = s.m_dry
      ∧ (AudioFilter.setQ s q).biquadState = s.biquadState)
    ∧ ((AudioFilter.setGainDb s g).m_gainDb = g
      ∧ (AudioFilter.setGainDb s g).m_coefficientsChanged = true
      ∧ (AudioFilter.setGainDb s g).m_filterAlgorithm = s.m_filterAlgorithm
      ∧ (AudioFilter.setGainDb s g).m_freqCutoff = s.m_freqCutoff
      ∧ (AudioFilter.setGainDb s g).m_Q = s.m_Q
      ∧ (AudioFilter.setGainDb s g).biquadCoeffs = s.biquadCoeffs
      ∧ (AudioFilter.setGainDb s g).m_wet = s.m_wet
      ∧ (AudioFilter.setGainDb s g).m_dry = s.m_dry
      ∧ (AudioFilter.setGainDb s g).biquadState = s.biquadState)
    ∧ ((AudioFilter.refreshCoefficients s).biquadCoeffs
        = (if s.m_coefficientsChanged then
            (AudioFilter.recalculateCoefficients s).biquadCoeffs
          else s.biquadCoeffs))
    ∧ (AudioFilter.refreshCoefficients s).m_coefficientsChanged = false
    ∧ ((AudioFilter.processAudioSample s x).2.map AudioFilterState.biquadCoeffs
        = (AudioFilter.processAudioSample s x).2.map
            fun _ => (AudioFilter.refreshCoefficients s).biquadCoeffs)
    ∧ ((AudioFilter.processAudioSample s x).2.map
          AudioFilterState.m_coefficientsChanged
        = (AudioFilter.processAudioSample s x).2.map fun _ => false) := by
  refine ⟨⟨rfl, rfl, rfl, rfl, rfl, rfl, rfl, rfl, rfl⟩,
    ⟨rfl, rfl, rfl, rfl, rfl, rfl, rfl, rfl, rfl⟩,
    ⟨rfl, rfl, rfl, rfl, rfl, rfl, rfl, rfl, rfl⟩,
    ⟨rfl, rfl, rfl, rfl, rfl, rfl, rfl, rfl, rfl⟩, ?_, ?_, ?_, ?_⟩
  · cases h : s.m_coefficientsChanged <;>
      simp [AudioFilter.refreshCoefficients, h]
  · exact refresh_not_dirty s
  · cases hb : (Biquad.processAudioSample
        (AudioFilter.refreshCoefficients s).biquadAlgorithm
        (AudioFilter.refreshCoefficients s).biquadCoeffs
        (AudioFilter.refreshCoefficients s).biquadState x).2 <;>
      simp [AudioFilter.processAudioSample, hb]
  · cases hb : (Biquad.processAudioSample
        (AudioFilter.refreshCoefficients s).biquadAlgorithm
        (AudioFilter.refreshCoefficients s).biquadCoeffs
        (AudioFilter.refreshCoefficients s).biquadState x).2 <;>
      simp [AudioFilter.processAudioSample, hb, refresh_not_dirty]

/-- C6 (counterexample): the `kBPF2` branch evaluates its tangent at the
unclamped angle `π·fc/fs`, which reaches `π/2` (beyond the clamp bound
`0.95·π/2`) at `fc = fs/2`: with `fc = 1`, `Q = 1`, `fs = 2` the source
branch computes `a0 = tan(π/2)/δ = 0` (Mathlib's junk value at the pole;
in C++ the unclamped tangent is astronomically large), whereas the spec's
mandated clamped derivation yields a strictly positive `a0`. -/
theorem c6_kBPF2_unclamped_counterexample :
    (AudioFilter.recalculateCoefficients
        { AudioFilter.init false with
          m_filterAlgorithm := FilterAlgorithm.kBPF2
          m_sampleRate := 2
          m_freqCutoff := 1
          m_Q := 1 }).biquadCoeffs.a0 = 0
    ∧ (kBPF2CoeffsSpecClamped 1 1 2).a0 ≠ 0
    ∧ 0.95 * Real.pi / 2 < Real.pi * 1 / 2 := by
  have hK : Real.tan (Real.pi * 1 / 2) = 0 := by
    rw [mul_one, Real.tan_pi_div_two]
  have ht : 0 < Real.tan (0.95 * Real.pi / 2) :=
    Real.tan_pos_of_pos_of_lt_pi_div_two (by nlinarith [Real.pi_pos])
      (by nlinarith [Real.pi_pos])
  refine ⟨?_, ?_, by nlinarith [Real.pi_pos]⟩
  · rw [recalculate_kBPF2 _ (by norm_num [AudioFilter.init]) rfl]
    show (kBPF2Coeffs 1 1 2).a0 = 0
    rw [show (kBPF2Coeffs 1 1 2).a0
        = Real.tan (Real.pi * 1 / 2)
          / (Real.tan (Real.pi * 1 / 2) * Real.tan (Real.pi * 1 / 2) * 1
            + Real.tan (Real.pi * 1 / 2) + 1) from rfl, hK]
    norm_num
  · have hclamp : clampAngle (Real.pi * 1 / 2) = 0.95 * Real.pi / 2 := by
      unfold clampAngle
      rw [if_pos (by nlinarith [Real.pi_pos])]
    rw [show (kBPF2CoeffsSpecClamped 1 1 2).a0
        = Real.tan (clampAngle (Real.pi * 1 / 2))
          / (Real.tan (clampAngle (Real.pi * 1 / 2))
              * Real.tan (clampAngle (Real.pi * 1 / 2)) * 1
            + Real.tan (clampAngle (Real.pi * 1 / 2)) + 1) from rfl, hclamp]
    have hd : 0 < Real.tan (0.95 * Real.pi / 2) * Real.tan (0.95 * Real.pi / 2) * 1
        + Real.tan (0.95 * Real.pi / 2) + 1 := by nlinarith
    exact ne_of_gt (div_pos ht hd)

/-- C6 (amended): the clamp `clampAngle` — applied at exactly the four
sites of `recalculateCoefficients` that the source clamps, namely the
half-bandwidth angles of `kButterBPF2Coeffs`, `kButterBSF2Coeffs` and
`kAPF2Coeffs` and the per-Q tangent argument of `kNCQParaEQResult` — never
lets an angle at or beyond `0.95·π/2` through to `tan`, and passes smaller
angles through unchanged.  Other tangent sites of the derivations (in
particular `kBPF2Coeffs`/`kBSF2Coeffs`) evaluate their angle unclamped. -/
theorem c6_clamped_sites_bounded (v : ℝ) :
    clampAngle v ≤ 0.95 * Real.pi / 2
    ∧ (v ≤ 0.95 * Real.pi / 2 → clampAngle v = v) := by
  unfold clampAngle
  by_cases h : v ≥ 0.95 * Real.pi / 2
  · rw [if_pos h]
    exact ⟨le_refl _, fun hv => (le_antisymm hv h).symm⟩
  · rw [if_neg h]
    exact ⟨le_of_lt (lt_of_not_ge h), fun _ => rfl⟩

/-- Witness for C6 (amended) at the angle `0`. -/
theorem c6_clamped_sites_bounded_witness :
    ((0 : ℝ) ≤ 0.95 * Real.pi / 2)
    ∧ clampAngle 0 ≤ 0.95 * Real.pi / 2
    ∧ clampAngle 0 = 0 :=
  ⟨by positivity, (c6_clamped_sites_bounded 0).1,
    (c6_clamped_sites_bounded 0).2 (by positivity)⟩

/-- C7 (counterexample): with an unrecognized selector (`99`) the engine
does get pass-through coefficients, but processing the input sequence
`[5]` is undefined: the direct-form state update executes
`s[y_z1] = s[(size_t)5.0]`, an out-of-bounds read of the 4-element state
array, so the processed sequence is not the unchanged input. -/
theorem c7_unknown_selector_counterexample :
    AudioFilter.processSeq
      (AudioFilter.setAlgorithm (AudioFilter.init false) 99) [5] = none := by
  have hdef := recalculate_default
    (AudioFilter.setAlgorithm (AudioFilter.init false) 99)
    (by norm_num [AudioFilter.setAlgorithm, AudioFilter.init])
    (by norm_num [AudioFilter.setAlgorithm, AudioFilter.init])
  have e1 : (AudioFilter.refreshCoefficients
      (AudioFilter.setAlgorithm (AudioFilter.init false) 99)).biquadCoeffs
      = passThroughCoeffs := by
    unfold AudioFilter.refreshCoefficients
    rw [if_pos (show (AudioFilter.setAlgorithm (AudioFilter.init false)
      99).m_coefficientsChanged = true from rfl)]
    show (AudioFilter.recalculateCoefficients _).biquadCoeffs = _
    rw [hdef]
  have e2 : (AudioFilter.refreshCoefficients
      (AudioFilter.setAlgorithm (AudioFilter.init false) 99)).biquadAlgorithm
      = BiquadAlgorithm.kDirect := by
    unfold AudioFilter.refreshCoefficients
    rw [if_pos (show (AudioFilter.setAlgorithm (AudioFilter.init false)
      99).m_coefficientsChanged = true from rfl)]
    show (AudioFilter.recalculateCoefficients _).biquadAlgorithm = _
    rw [(recalculate_preserves _).2.1]
    rfl
  have hoob := biquad_direct_passthrough_oob
    (AudioFilter.refreshCoefficients
      (AudioFilter.setAlgorithm (AudioFilter.init false) 99)).biquadState 5
    (by norm_num)
  simp only [AudioFilter.processSeq, AudioFilter.processAudioSample,
    e1, e2, hoob, Option.map_none']

/-- C7 (amended): recomputation with any selector outside the 29 defined
variants (`0..28`) and a positive sample rate yields the pass-through set
(`a0 = 1`, all other coefficients `0`, `wet = 1`, `dry = 0`); and an engine
so configured (direct-form biquad, dirty flag set) maps any finite input
sequence whose samples all lie in `(-1, 4)` — the range in which the
direct form's `s[(size_t)y]` history write stays in bounds — to itself. -/
theorem c7_default_passthrough_amended (s : AudioFilterState) (xs : List ℝ)
    (halg : ¬ (0 ≤ s.m_filterAlgorithm ∧ s.m_filterAlgorithm ≤ 28))
    (hsr : 0 < s.m_sampleRate) :
    ((AudioFilter.recalculateCoefficients s).biquadCoeffs = passThroughCoeffs
      ∧ (AudioFilter.recalculateCoefficients s).m_wet = 1
      ∧ (AudioFilter.recalculateCoefficients s).m_dry = 0)
    ∧ (s.biquadAlgorithm = BiquadAlgorithm.kDirect →
        s.m_coefficientsChanged = true →
        (∀ x ∈ xs, -1 < x ∧ x < 4) →
        ∃ s2, AudioFilter.processSeq s xs = some (xs, s2)) := by
  have hdef := recalculate_default s (not_le.mpr hsr) halg
  constructor
  · rw [hdef]
    exact ⟨rfl, rfl, rfl⟩
  · intro hbq hflag hmem
    have hIref : directPassInvariant (AudioFilter.refreshCoefficients s) := by
      unfold AudioFilter.refreshCoefficients
      rw [hflag, if_pos (rfl : true = true)]
      refine ⟨?_, ?_, ?_, ?_, rfl⟩
      · show (AudioFilter.recalculateCoefficients s).biquadCoeffs = _
        rw [hdef]
      · show (AudioFilter.recalculateCoefficients s).biquadAlgorithm = _
        rw [(recalculate_preserves s).2.1, hbq]
      · show (AudioFilter.recalculateCoefficients s).m_wet = 1
        rw [hdef]
      · show (AudioFilter.recalculateCoefficients s).m_dry = 0
        rw [hdef]
    cases xs with
    | nil => exact ⟨s, rfl⟩
    | cons x xs =>
      obtain ⟨s2, hstep, hI2⟩ := pt_step _ hIref x
        (hmem x (by simp)).1 (hmem x (by simp)).2
      obtain ⟨s3, hrun⟩ := pt_run xs s2 hI2 fun z hz => hmem z (by simp [hz])
      refine ⟨s3, ?_⟩
      simp only [AudioFilter.processSeq, process_refresh s x, hstep, hrun,
        Option.map_some']

/-- Witness for C7 (amended): selector `99`, sequence `[1, 2]`. -/
theorem c7_default_passthrough_amended_witness :
    (¬ (0 ≤ (AudioFilter.setAlgorithm (AudioFilter.init false) 99).m_filterAlgorithm
        ∧ (AudioFilter.setAlgorithm (AudioFilter.init false) 99).m_filterAlgorithm ≤ 28))
    ∧ (0 : ℝ) < (AudioFilter.setAlgorithm (AudioFilter.init false) 99).m_sampleRate
    ∧ (AudioFilter.recalculateCoefficients
        (AudioFilter.setAlgorithm (AudioFilter.init false) 99)).biquadCoeffs
        = passThroughCoeffs
    ∧ ∃ s2, AudioFilter.processSeq
        (AudioFilter.setAlgorithm (AudioFilter.init false) 99) [1, 2]
        = some ([1, 2], s2) := by
  have h1 : ¬ (0 ≤ (AudioFilter.setAlgorithm (AudioFilter.init false) 99).m_filterAlgorithm
      ∧ (AudioFilter.setAlgorithm (AudioFilter.init false) 99).m_filterAlgorithm ≤ 28) := by
    norm_num [AudioFilter.setAlgorithm, AudioFilter.init]
  have h2 : (0 : ℝ) < (AudioFilter.setAlgorithm (AudioFilter.init false) 99).m_sampleRate := by
    norm_num [AudioFilter.setAlgorithm, AudioFilter.init]
  have hmain := c7_default_passthrough_amended
    (AudioFilter.setAlgorithm (AudioFilter.init false) 99) [1, 2] h1 h2
  refine ⟨h1, h2, hmain.1.1, hmain.2 rfl rfl ?_⟩
  intro x hx
  simp only [List.mem_cons, List.not_mem_nil, or_false] at hx
  rcases hx with rfl | rfl <;> norm_num
